import Mathlib

/-!
Verification of the VNET route consistency checker (scripts/vnet_route_check.py).

The script audits VNET route state across APP_DB (control plane), ASIC_DB
(hardware abstraction) and the vendor SDK.  This file gives a shallow
embedding of its core logic:

* Python dictionaries are modeled as insertion-ordered association lists
  with unique keys (dictLookup / dictSet below).
* A route table value { 'routes': [...], 'vrf_oid': ... } is RouteEntry.
* Values that the script stores under a vnet key of a *result* dictionary
  are RoutesVal: either the documented shape { 'routes': [pfx, ...] }
  (RoutesVal.routeList), or the accumulator dictionary itself — the source
  executes routes[vnet_name] = routes, a cyclic self-reference, modeled by
  the marker RoutesVal.accumRef — or the integer returned by os.system,
  which get_sdk_vnet_routes_diff stores under 'routes'
  (RoutesVal.retCode).
* Fallible code (KeyError / IndexError) is embedded with Except.
* The loops of the script are translated loop by loop, including the
  mutation of a list while iterating over it in
  filter_out_vnet_ip2me_routes.
-/

/-- Python dict modeled as an insertion-ordered association list.
dictLookup d n models d[n] (as an Option; none is a KeyError) and also
the membership test n in d. -/
def dictLookup {α : Type} : List (String × α) → String → Option α
  | [], _ => none
  | (k, v) :: rest, n => if k = n then some v else dictLookup rest n

/-- dictSet d k v models d[k] = v: it overwrites the value in place if the
key exists (keeping insertion order) and appends the new key otherwise. -/
def dictSet {α : Type} : List (String × α) → String → α → List (String × α)
  | [], k, v => [(k, v)]
  | (k2, v2) :: rest, k, v =>
    if k2 = k then (k2, v) :: rest else (k2, v2) :: dictSet rest k v

/-- One value of a VNET route table of the script:
{ 'routes': [ pfx/pfx_len ], 'vrf_oid': oid }. -/
structure RouteEntry where
  routes : List String
  vrf_oid : String
  deriving Repr, DecidableEq

/-- Value stored under a vnet key of a result dictionary produced by the
script.  routeList rs is the documented shape { 'routes': rs }.
accumRef marks the value produced by line 274 of the source,
routes[vnet_name] = routes, which aliases the result dictionary itself
(a cyclic reference in Python).  retCode n marks the value produced by
get_sdk_vnet_routes_diff, which stores the integer os.system status under
'routes'. -/
inductive RoutesVal where
  | routeList : List String → RoutesVal
  | accumRef : RoutesVal
  | retCode : Int → RoutesVal
  deriving Repr, DecidableEq

/-! ## Diff engine: get_vnet_routes_diff (source lines 265-283) -/

/-- The inner two-line update of the diff accumulator:
if vnet_name not in routes: routes[vnet_name] = {'routes': []};
routes[vnet_name]['routes'].append(vnet_route).
If the accumulator already holds a non-list value at the key (impossible
when the iterated dictionary has unique keys) the accumulator is kept. -/
def diffAccAppend (routes : List (String × RoutesVal)) (vnet_name : String)
    (vnet_route : String) : List (String × RoutesVal) :=
  let routes1 :=
    if (dictLookup routes vnet_name).isNone then
      dictSet routes vnet_name (RoutesVal.routeList [])
    else routes
  match dictLookup routes1 vnet_name with
  | some (RoutesVal.routeList rs) =>
    dictSet routes1 vnet_name (RoutesVal.routeList (rs ++ [vnet_route]))
  | _ => routes1

/-- The inner loop of get_vnet_routes_diff over vnet_attrs['routes'],
ref_routes being routes_1[vnet_name]['routes']. -/
def diffStepRoutes (ref_routes : List String) (vnet_name : String) :
    List (String × RoutesVal) → List String → List (String × RoutesVal)
  | routes, [] => routes
  | routes, vnet_route :: rest =>
    if vnet_route ∈ ref_routes then
      diffStepRoutes ref_routes vnet_name routes rest
    else
      diffStepRoutes ref_routes vnet_name (diffAccAppend routes vnet_name vnet_route) rest

/-- The outer loop of get_vnet_routes_diff over routes_2.items().
When vnet_name is not a key of routes_1 the source executes
routes[vnet_name] = routes, assigning the accumulator dictionary itself;
this is the RoutesVal.accumRef marker. -/
def diffGo (routes_1 : List (String × RouteEntry)) :
    List (String × RoutesVal) → List (String × RouteEntry) → List (String × RoutesVal)
  | routes, [] => routes
  | routes, (vnet_name, vnet_attrs) :: rest =>
    match dictLookup routes_1 vnet_name with
    | none => diffGo routes_1 (dictSet routes vnet_name RoutesVal.accumRef) rest
    | some ref_attrs =>
      diffGo routes_1 (diffStepRoutes ref_attrs.routes vnet_name routes vnet_attrs.routes) rest

/-- get_vnet_routes_diff (routes_1, routes_2): routes present in routes_2
but missed in routes_1. -/
def get_vnet_routes_diff (routes_1 routes_2 : List (String × RouteEntry)) :
    List (String × RoutesVal) :=
  diffGo routes_1 [] routes_2

/-! ## Self-route filter: filter_out_vnet_ip2me_routes (source lines 155-187) -/

/-- Python str.replace('/24', '/32'): replace every non-overlapping
occurrence of the literal substring "/24" by "/32", left to right.  Note
the source hardcodes this single substitution; other prefix lengths are
left untouched. -/
def replace_24_with_32 : List Char → List Char
  | '/' :: '2' :: '4' :: rest => '/' :: '3' :: '2' :: replace_24_with_32 rest
  | c :: rest => c :: replace_24_with_32 rest
  | [] => []

/-- String-level wrapper for replace_24_with_32. -/
def pyReplace_24_32 (s : String) : String :=
  String.mk (replace_24_with_32 s.data)

/-- Python str.split(':') on a list of characters.
splitColonChars [] = [[]], matching ''.split(':') = ['']. -/
def splitColonChars : List Char → List (List Char)
  | [] => [[]]
  | ':' :: rest => [] :: splitColonChars rest
  | c :: rest =>
    match splitColonChars rest with
    | [] => [[c]]
    | g :: gs => (c :: g) :: gs

/-- String-level wrapper for splitColonChars, models s.split(':'). -/
def pySplitColon (s : String) : List String :=
  (splitColonChars s.data).map String.mk

/-- Python list.remove(x): remove the first element equal to x. -/
def removeFirst : List String → String → List String
  | [], _ => []
  | y :: ys, x => if y = x then ys else y :: removeFirst ys x

/-- The loop "for route in vnet_attrs['routes']: if route in
vnet_ip2me_routes: vnet_attrs['routes'].remove(route)" of the source,
with Python's exact semantics of removing from a list while iterating
over it by index: the iterator keeps advancing its index i over the
mutated list, so the element following a removed one is skipped.
The fuel argument bounds the number of iterations; every iteration
increments i and never lengthens the list, so an initial fuel of
l.length is exactly enough for the loop to reach its exit condition
i >= len(l). -/
def routesFilterGo (vnet_ip2me_routes : List String) :
    Nat → List String → Nat → List String
  | 0, l, _ => l
  | fuel + 1, l, i =>
    match l.get? i with
    | none => l
    | some route =>
      if route ∈ vnet_ip2me_routes then
        routesFilterGo vnet_ip2me_routes fuel (removeFirst l route) (i + 1)
      else
        routesFilterGo vnet_ip2me_routes fuel l (i + 1)

/-- Source lines 162-179: build the list vnet_ip2me_routes from the
flattened VNET interface names and the APPL_DB INTF_TABLE keys.  A key
with no ':' separator is skipped; otherwise, when the interface name
(part 0) is bound to a VNET, part 1 is appended after the hardcoded
substring replacement '/24' -> '/32'. -/
def build_vnet_ip2me_routes (vnet_intfs : List (String × List String))
    (all_rifs_db_keys : List String) : List String :=
  let vnet_intfs_flat := (vnet_intfs.map Prod.snd).flatten
  all_rifs_db_keys.foldl
    (fun vnet_ip2me_routes rif =>
      let rif_attrs := pySplitColon rif
      if rif_attrs.length = 1 then vnet_ip2me_routes
      else if rif_attrs.getD 0 "" ∈ vnet_intfs_flat then
        vnet_ip2me_routes ++ [pyReplace_24_32 (rif_attrs.getD 1 "")]
      else vnet_ip2me_routes)
    []

/-- filter_out_vnet_ip2me_routes (source lines 155-187): for every vnet,
remove the self (IP2ME) routes from its route list with the
iterate-while-removing loop above, then drop the vnets whose route list
became empty (the source pops them from the dictionary; the items
iteration is taken over a snapshot of the entries). -/
def filter_out_vnet_ip2me_routes (vnet_intfs : List (String × List String))
    (all_rifs_db_keys : List String) (vnet_routes : List (String × RouteEntry)) :
    List (String × RouteEntry) :=
  let vnet_ip2me_routes := build_vnet_ip2me_routes vnet_intfs all_rifs_db_keys
  (vnet_routes.map (fun p =>
    (p.1, { p.2 with
            routes := routesFilterGo vnet_ip2me_routes p.2.routes.length p.2.routes 0 }))).filter
    (fun p => !p.2.routes.isEmpty)

/-! ## SDK diff: get_sdk_vnet_routes_diff (source lines 286-305) -/

/-- Environment of the SDK check subprocess calls.  probe_res is the
os.system status of "docker exec syncd test -f /usr/bin/vnet_route_check.py"
(0 when the in-syncd checker exists, i.e. the validator is available);
check_res vrf_oid routes is the os.system status of the per-vnet checker
invocation. -/
structure SdkEnv where
  probe_res : Int
  check_res : String → List String → Int

/-- The per-vnet loop of get_sdk_vnet_routes_diff.  On a non-zero check
status res the source stores res itself under 'routes':
routes_diff[vnet_name]['routes'] = res. -/
def sdkGo (env : SdkEnv) :
    List (String × RoutesVal) → List (String × RouteEntry) → List (String × RoutesVal)
  | routes_diff, [] => routes_diff
  | routes_diff, (vnet_name, attrs) :: rest =>
    let res := env.check_res attrs.vrf_oid attrs.routes
    if res ≠ 0 then
      sdkGo env (dictSet routes_diff vnet_name (RoutesVal.retCode res)) rest
    else
      sdkGo env routes_diff rest

/-- get_sdk_vnet_routes_diff: if the availability probe fails the empty
dictionary is returned at once; otherwise each vnet is checked. -/
def get_sdk_vnet_routes_diff (env : SdkEnv) (routes : List (String × RouteEntry)) :
    List (String × RoutesVal) :=
  if env.probe_res ≠ 0 then []
  else sdkGo env [] routes

/-! ## Report builder and exit status: main (source lines 308-335) -/

def RC_OK : Int := 0

def RC_ERR : Int := -1

/-- The res['results'] dictionary of main: one key per non-empty
mismatch mapping. -/
def build_results (missed_in_asic_db_routes missed_in_app_db_routes
    missed_in_sdk_routes : List (String × RoutesVal)) :
    List (String × List (String × RoutesVal)) :=
  (if missed_in_asic_db_routes.isEmpty then []
   else [("missed_in_asic_db_routes", missed_in_asic_db_routes)]) ++
  (if missed_in_app_db_routes.isEmpty then []
   else [("missed_in_app_db_routes", missed_in_app_db_routes)]) ++
  (if missed_in_sdk_routes.isEmpty then []
   else [("missed_in_sdk_routes", missed_in_sdk_routes)])

/-- The return code computed by main: RC_ERR when res['results'] is
truthy (non-empty), RC_OK otherwise; this is the value passed to
sys.exit. -/
def report_rc (missed_in_asic_db_routes missed_in_app_db_routes
    missed_in_sdk_routes : List (String × RoutesVal)) : Int :=
  if (build_results missed_in_asic_db_routes missed_in_app_db_routes
      missed_in_sdk_routes).isEmpty then RC_OK
  else RC_ERR

/-- The exit status of main as a function of the two collected route
tables and the SDK environment (source lines 308-335). -/
def main_rc (app_db_vnet_routes asic_db_vnet_routes : List (String × RouteEntry))
    (env : SdkEnv) : Int :=
  report_rc
    (get_vnet_routes_diff asic_db_vnet_routes app_db_vnet_routes)
    (get_vnet_routes_diff app_db_vnet_routes asic_db_vnet_routes)
    (get_sdk_vnet_routes_diff env asic_db_vnet_routes)

/-! ## APP_DB collector: get_vnet_routes_from_app_db (source lines 190-218) -/

/-- The loop of get_vnet_routes_from_app_db over the APP_DB route keys.
Each key is split on ':'; indexing part 1 of a separator-free key raises
IndexError; for a vnet seen for the first time, vnet_intfs[vnet_name]
raises KeyError when the vnet has no interface entry and indexing [0]
raises IndexError when its interface list is empty.  Any of these aborts
the run, embedded as Except.error. -/
def appDbGo (vnet_intfs : List (String × List String))
    (vnet_vrfs : List (String × String)) :
    List (String × RouteEntry) → List String →
    Except String (List (String × RouteEntry))
  | vnet_routes, [] => Except.ok vnet_routes
  | vnet_routes, vnet_route_db_key :: rest =>
    let vnet_route_list := pySplitColon vnet_route_db_key
    let vnet_name := vnet_route_list.getD 0 ""
    match vnet_route_list.get? 1 with
    | none => Except.error "IndexError: list index out of range"
    | some vnet_route =>
      match dictLookup vnet_routes vnet_name with
      | some entry =>
        appDbGo vnet_intfs vnet_vrfs
          (dictSet vnet_routes vnet_name { entry with routes := entry.routes ++ [vnet_route] })
          rest
      | none =>
        match dictLookup vnet_intfs vnet_name with
        | none => Except.error "KeyError: vnet has no interface entry"
        | some intfs =>
          match intfs.get? 0 with
          | none => Except.error "IndexError: empty interface list"
          | some intf =>
            appDbGo vnet_intfs vnet_vrfs
              (dictSet vnet_routes vnet_name
                { routes := [vnet_route], vrf_oid := (dictLookup vnet_vrfs intf).getD "None" })
              rest

/-- get_vnet_routes_from_app_db: builds the control-plane route table
from the concatenated VNET_ROUTE_TABLE and VNET_ROUTE_TUNNEL_TABLE keys,
vnet_intfs and the vnet VRF map. -/
def get_vnet_routes_from_app_db (vnet_intfs : List (String × List String))
    (vnet_vrfs : List (String × String)) (vnet_routes_db_keys : List String) :
    Except String (List (String × RouteEntry)) :=
  appDbGo vnet_intfs vnet_vrfs [] vnet_routes_db_keys

/-! ## Specification-side helper definitions, used to characterize the diff -/

/-- The candidate routes not found (by equality) in the reference route
list, in candidate order: exactly the routes the inner diff loop appends. -/
def missedRoutes (ref_routes : List String) : List String → List String
  | [] => []
  | r :: rest =>
    if r ∈ ref_routes then missedRoutes ref_routes rest
    else r :: missedRoutes ref_routes rest

/-- Effect on one accumulator slot of appending a batch of missed routes:
a route list grows, the accumRef and retCode markers absorb everything,
and an absent slot is created only when the batch is non-empty. -/
def diffValAppend : Option RoutesVal → List String → Option RoutesVal
  | some (RoutesVal.routeList rs), missed => some (RoutesVal.routeList (rs ++ missed))
  | some RoutesVal.accumRef, _ => some RoutesVal.accumRef
  | some (RoutesVal.retCode c), _ => some (RoutesVal.retCode c)
  | none, missed =>
    if missed.isEmpty then none else some (RoutesVal.routeList missed)

/-! ## Lemmas about the dictionary model -/

theorem dictLookup_dictSet {α : Type} (d : List (String × α)) (k n : String) (v : α) :
    dictLookup (dictSet d k v) n = if k = n then some v else dictLookup d n := by
  induction d with
  | nil =>
    by_cases h : k = n <;> simp [dictSet, dictLookup, h]
  | cons p rest ih =>
    obtain ⟨k2, v2⟩ := p
    by_cases h : k2 = k
    · subst h
      by_cases h2 : k2 = n <;> simp [dictSet, dictLookup, h2]
    · by_cases h2 : k2 = n
      · subst h2
        have hk : ¬ k = k2 := fun hh => h hh.symm
        simp [dictSet, dictLookup, h, hk]
      · simp [dictSet, dictLookup, h, h2, ih]

theorem dictLookup_eq_none_of_not_mem {α : Type} (d : List (String × α)) (n : String)
    (h : n ∉ d.map Prod.fst) : dictLookup d n = none := by
  induction d with
  | nil => rfl
  | cons p rest ih =>
    simp only [List.map_cons, List.mem_cons] at h
    push_neg at h
    have h1 : ¬ p.1 = n := fun hh => h.1 hh.symm
    obtain ⟨k2, v2⟩ := p
    simp only [dictLookup, if_neg h1]
    exact ih h.2

theorem eq_nil_of_dictLookup_none {α : Type} (d : List (String × α))
    (h : ∀ n, dictLookup d n = none) : d = [] := by
  cases d with
  | nil => rfl
  | cons p rest =>
    have := h p.1
    obtain ⟨k2, v2⟩ := p
    simp [dictLookup] at this

/-! ## Characterization of the diff engine -/

theorem diffValAppend_nil (v : Option RoutesVal) : diffValAppend v [] = v := by
  cases v with
  | none => rfl
  | some w => cases w <;> simp [diffValAppend]

theorem diffValAppend_cons (v : Option RoutesVal) (r : String) (m : List String) :
    diffValAppend (diffValAppend v [r]) m = diffValAppend v (r :: m) := by
  cases v with
  | none => simp [diffValAppend]
  | some w => cases w <;> simp [diffValAppend]

theorem diffAccAppend_lookup (routes : List (String × RoutesVal)) (vn r n : String) :
    dictLookup (diffAccAppend routes vn r) n =
      if vn = n then diffValAppend (dictLookup routes vn) [r]
      else dictLookup routes n := by
  cases hv : dictLookup routes vn with
  | none =>
    by_cases hn : vn = n
    · subst hn
      simp [diffAccAppend, hv, dictLookup_dictSet, diffValAppend]
    · simp [diffAccAppend, hv, dictLookup_dictSet, diffValAppend, hn]
  | some w =>
    cases w <;> by_cases hn : vn = n <;>
      first
        | (subst hn; simp [diffAccAppend, hv, dictLookup_dictSet, diffValAppend])
        | simp [diffAccAppend, hv, dictLookup_dictSet, diffValAppend, hn]

theorem diffStepRoutes_lookup (ref_routes : List String) (vn : String) :
    ∀ (rs : List String) (routes : List (String × RoutesVal)) (n : String),
    dictLookup (diffStepRoutes ref_routes vn routes rs) n =
      if vn = n then diffValAppend (dictLookup routes vn) (missedRoutes ref_routes rs)
      else dictLookup routes n
  | [], routes, n => by
    by_cases hn : vn = n <;> simp [diffStepRoutes, missedRoutes, diffValAppend_nil, hn]
  | r :: rest, routes, n => by
    by_cases hr : r ∈ ref_routes
    · simp [diffStepRoutes, hr, missedRoutes,
        diffStepRoutes_lookup ref_routes vn rest routes n]
    · have ih := diffStepRoutes_lookup ref_routes vn rest (diffAccAppend routes vn r) n
      by_cases hn : vn = n
      · subst hn
        simp [diffStepRoutes, hr, missedRoutes, ih, diffAccAppend_lookup,
          diffValAppend_cons]
      · simp [diffStepRoutes, hr, missedRoutes, ih, diffAccAppend_lookup, hn,
          diffValAppend_cons]

theorem diffGo_lookup_absent (routes_1 : List (String × RouteEntry)) :
    ∀ (routes_2 : List (String × RouteEntry)) (acc : List (String × RoutesVal)) (n : String),
    dictLookup routes_2 n = none →
    dictLookup (diffGo routes_1 acc routes_2) n = dictLookup acc n
  | [], _, n, _ => rfl
  | (m, e) :: rest, acc, n, h => by
    have hm : ¬ m = n := by
      intro hh
      simp [dictLookup, hh] at h
    have hrest : dictLookup rest n = none := by
      simpa [dictLookup, hm] using h
    cases h1 : dictLookup routes_1 m with
    | none =>
      simp [diffGo, h1, diffGo_lookup_absent routes_1 rest _ n hrest,
        dictLookup_dictSet, hm]
    | some ref_attrs =>
      simp [diffGo, h1, diffGo_lookup_absent routes_1 rest _ n hrest,
        diffStepRoutes_lookup, hm]

theorem diffGo_lookup (routes_1 : List (String × RouteEntry)) :
    ∀ (routes_2 : List (String × RouteEntry)) (acc : List (String × RoutesVal)) (n : String),
    (routes_2.map Prod.fst).Nodup →
    dictLookup (diffGo routes_1 acc routes_2) n =
      match dictLookup routes_2 n with
      | none => dictLookup acc n
      | some eb =>
        match dictLookup routes_1 n with
        | none => some RoutesVal.accumRef
        | some ea => diffValAppend (dictLookup acc n) (missedRoutes ea.routes eb.routes)
  | [], acc, n, _ => rfl
  | (m, e) :: rest, acc, n, hnd => by
    simp only [List.map_cons] at hnd
    have hm_rest : m ∉ rest.map Prod.fst := (List.nodup_cons.mp hnd).1
    have hnd_rest : (rest.map Prod.fst).Nodup := (List.nodup_cons.mp hnd).2
    by_cases hmn : m = n
    · subst hmn
      have hrest_none : dictLookup rest m = none :=
        dictLookup_eq_none_of_not_mem _ _ hm_rest
      cases h1 : dictLookup routes_1 m with
      | none =>
        simp [diffGo, h1, dictLookup,
          diffGo_lookup_absent routes_1 rest _ m hrest_none, dictLookup_dictSet]
      | some ea =>
        simp [diffGo, h1, dictLookup,
          diffGo_lookup_absent routes_1 rest _ m hrest_none, diffStepRoutes_lookup]
    · cases h1 : dictLookup routes_1 m with
      | none =>
        have ih := diffGo_lookup routes_1 rest (dictSet acc m RoutesVal.accumRef) n hnd_rest
        simp only [diffGo, h1, ih, dictLookup_dictSet, if_neg hmn]
        simp [dictLookup, hmn]
      | some ea =>
        have ih :=
          diffGo_lookup routes_1 rest (diffStepRoutes ea.routes m acc e.routes) n hnd_rest
        simp only [diffGo, h1, ih, diffStepRoutes_lookup, if_neg hmn]
        simp [dictLookup, hmn]

theorem mem_missedRoutes (ref_routes : List String) :
    ∀ (rs : List String) (r : String),
    r ∈ missedRoutes ref_routes rs → r ∈ rs ∧ r ∉ ref_routes
  | [], r, h => by simp [missedRoutes] at h
  | x :: rest, r, h => by
    by_cases hx : x ∈ ref_routes
    · simp only [missedRoutes, if_pos hx] at h
      have hr := mem_missedRoutes ref_routes rest r h
      exact ⟨List.mem_cons_of_mem _ hr.1, hr.2⟩
    · simp only [missedRoutes, if_neg hx, List.mem_cons] at h
      cases h with
      | inl he =>
        subst he
        exact ⟨List.mem_cons_self _ _, hx⟩
      | inr hm =>
        have hr := mem_missedRoutes ref_routes rest r hm
        exact ⟨List.mem_cons_of_mem _ hr.1, hr.2⟩

theorem missedRoutes_eq_nil (ref_routes : List String) :
    ∀ rs : List String, (∀ r ∈ rs, r ∈ ref_routes) → missedRoutes ref_routes rs = []
  | [], _ => rfl
  | x :: rest, h => by
    have hx : x ∈ ref_routes := h x (List.mem_cons_self _ _)
    simp only [missedRoutes, if_pos hx]
    exact missedRoutes_eq_nil ref_routes rest (fun r hr => h r (List.mem_cons_of_mem _ hr))

/-- Lookup characterization of get_vnet_routes_diff, assuming routes_2
has unique keys (always true of a Python dictionary): a vnet absent from
routes_2 is absent from the result; a vnet of routes_2 absent from
routes_1 is mapped to the accumulator self-reference; a vnet present in
both is mapped to its routes missing from routes_1, or omitted when
there are none. -/
theorem get_vnet_routes_diff_lookup (routes_1 routes_2 : List (String × RouteEntry))
    (n : String) (hnd : (routes_2.map Prod.fst).Nodup) :
    dictLookup (get_vnet_routes_diff routes_1 routes_2) n =
      match dictLookup routes_2 n with
      | none => none
      | some eb =>
        match dictLookup routes_1 n with
        | none => some RoutesVal.accumRef
        | some ea =>
          if (missedRoutes ea.routes eb.routes).isEmpty then none
          else some (RoutesVal.routeList (missedRoutes ea.routes eb.routes)) := by
  have h := diffGo_lookup routes_1 routes_2 [] n hnd
  simp only [get_vnet_routes_diff]
  rw [h]
  cases hb : dictLookup routes_2 n with
  | none => rfl
  | some eb =>
    cases ha : dictLookup routes_1 n with
    | none => rfl
    | some ea => simp [diffValAppend, dictLookup]

theorem report_rc_eq_ok_iff (m1 m2 m3 : List (String × RoutesVal)) :
    report_rc m1 m2 m3 = RC_OK ↔ (m1 = [] ∧ m2 = [] ∧ m3 = []) := by
  by_cases h1 : m1 = [] <;> by_cases h2 : m2 = [] <;> by_cases h3 : m3 = [] <;>
    simp [report_rc, build_results, h1, h2, h3, RC_OK, RC_ERR, List.isEmpty_iff]

theorem report_rc_eq_err (m1 m2 m3 : List (String × RoutesVal))
    (h : ¬(m1 = [] ∧ m2 = [] ∧ m3 = [])) : report_rc m1 m2 m3 = RC_ERR := by
  by_cases h1 : m1 = []
  · by_cases h2 : m2 = []
    · by_cases h3 : m3 = []
      · exact absurd ⟨h1, h2, h3⟩ h
      · simp [report_rc, build_results, h1, h2, h3, List.isEmpty_iff]
    · simp [report_rc, build_results, h1, h2, List.isEmpty_iff]
  · simp [report_rc, build_results, h1, List.isEmpty_iff]

/-! ## Lemmas about the APP_DB collector -/

theorem appDbGo_ok_mem (vnet_intfs : List (String × List String))
    (vnet_vrfs : List (String × String)) :
    ∀ (keys : List String) (acc result : List (String × RouteEntry)),
    appDbGo vnet_intfs vnet_vrfs acc keys = Except.ok result →
    (∀ n e, dictLookup acc n = some e →
      ∃ intfs, dictLookup vnet_intfs n = some intfs ∧ intfs ≠ []) →
    ∀ k ∈ keys, ∃ intfs,
      dictLookup vnet_intfs ((pySplitColon k).getD 0 "") = some intfs ∧ intfs ≠ []
  | [], _, _, _, _, k, hk => absurd hk (List.not_mem_nil k)
  | k0 :: rest, acc, result, hok, hinv, k, hk => by
    simp only [appDbGo] at hok
    split at hok
    · exact Except.noConfusion hok
    · rename_i vnet_route h1
      split at hok
      · rename_i entry h2
        have hinv2 : ∀ n e,
            dictLookup (dictSet acc ((pySplitColon k0).getD 0 "")
              { entry with routes := entry.routes ++ [vnet_route] }) n = some e →
            ∃ intfs, dictLookup vnet_intfs n = some intfs ∧ intfs ≠ [] := by
          intro n e he
          rw [dictLookup_dictSet] at he
          by_cases hn : (pySplitColon k0).getD 0 "" = n
          · subst hn
            exact hinv _ _ h2
          · rw [if_neg hn] at he
            exact hinv _ _ he
        cases List.mem_cons.mp hk with
        | inl he =>
          subst he
          exact hinv _ _ h2
        | inr hm =>
          exact appDbGo_ok_mem vnet_intfs vnet_vrfs rest _ result hok hinv2 k hm
      · split at hok
        · exact Except.noConfusion hok
        · rename_i intfs h3
          split at hok
          · exact Except.noConfusion hok
          · rename_i intf h4
            have hne : intfs ≠ [] := by
              intro hnil
              subst hnil
              simp at h4
            have hinv2 : ∀ n e,
                dictLookup (dictSet acc ((pySplitColon k0).getD 0 "")
                  { routes := [vnet_route],
                    vrf_oid := (dictLookup vnet_vrfs intf).getD "None" }) n = some e →
                ∃ intfs2, dictLookup vnet_intfs n = some intfs2 ∧ intfs2 ≠ [] := by
              intro n e he
              rw [dictLookup_dictSet] at he
              by_cases hn : (pySplitColon k0).getD 0 "" = n
              · subst hn
                exact ⟨intfs, h3, hne⟩
              · rw [if_neg hn] at he
                exact hinv _ _ he
            cases List.mem_cons.mp hk with
            | inl he =>
              subst he
              exact ⟨intfs, h3, hne⟩
            | inr hm =>
              exact appDbGo_ok_mem vnet_intfs vnet_vrfs rest _ result hok hinv2 k hm

theorem appDbGo_err_of_missing (vnet_intfs : List (String × List String))
    (vnet_vrfs : List (String × String)) :
    ∀ (keys : List String) (acc : List (String × RouteEntry)),
    (∀ n e, dictLookup acc n = some e → (dictLookup vnet_intfs n).isSome) →
    ∀ k ∈ keys, dictLookup vnet_intfs ((pySplitColon k).getD 0 "") = none →
    ∃ msg, appDbGo vnet_intfs vnet_vrfs acc keys = Except.error msg
  | [], _, _, k, hk, _ => absurd hk (List.not_mem_nil k)
  | k0 :: rest, acc, hinv, k, hk, hnone => by
    simp only [appDbGo]
    split
    · exact ⟨_, rfl⟩
    · rename_i vnet_route h1
      split
      · rename_i entry h2
        cases List.mem_cons.mp hk with
        | inl he =>
          subst he
          have hs := hinv _ _ h2
          rw [hnone] at hs
          simp at hs
        | inr hm =>
          have hinv2 : ∀ n e,
              dictLookup (dictSet acc ((pySplitColon k0).getD 0 "")
                { entry with routes := entry.routes ++ [vnet_route] }) n = some e →
              (dictLookup vnet_intfs n).isSome := by
            intro n e he
            rw [dictLookup_dictSet] at he
            by_cases hn : (pySplitColon k0).getD 0 "" = n
            · subst hn
              exact hinv _ _ h2
            · rw [if_neg hn] at he
              exact hinv _ _ he
          exact appDbGo_err_of_missing vnet_intfs vnet_vrfs rest _ hinv2 k hm hnone
      · split
        · exact ⟨_, rfl⟩
        · rename_i intfs h3
          split
          · exact ⟨_, rfl⟩
          · rename_i intf h4
            cases List.mem_cons.mp hk with
            | inl he =>
              subst he
              rw [hnone] at h3
              exact Option.noConfusion h3
            | inr hm =>
              have hinv2 : ∀ n e,
                  dictLookup (dictSet acc ((pySplitColon k0).getD 0 "")
                    { routes := [vnet_route],
                      vrf_oid := (dictLookup vnet_vrfs intf).getD "None" }) n = some e →
                  (dictLookup vnet_intfs n).isSome := by
                intro n e he
                rw [dictLookup_dictSet] at he
                by_cases hn : (pySplitColon k0).getD 0 "" = n
                · subst hn
                  rw [h3]
                  rfl
                · rw [if_neg hn] at he
                  exact hinv _ _ he
              exact appDbGo_err_of_missing vnet_intfs vnet_vrfs rest _ hinv2 k hm hnone

/-! ## Claim theorems -/

/-- C1: the claim states that a network present in the candidate but
entirely absent from the reference is mapped by get_vnet_routes_diff to
the full set of the network's candidate routes.  The code instead
executes routes[vnet_name] = routes (source line 274), storing a
self-reference to the result dictionary (RoutesVal.accumRef) and not the
route list: with reference empty and candidate Vnet3 -> [10.3.0.0/24],
the result maps Vnet3 to the accumulator marker, not to the documented
shape with the full route list. -/
theorem c1_full_network_miss_stores_accumulator :
    get_vnet_routes_diff []
        [("Vnet3", { routes := ["10.3.0.0/24"], vrf_oid := "oid3" })]
      = [("Vnet3", RoutesVal.accumRef)]
    ∧ get_vnet_routes_diff []
        [("Vnet3", { routes := ["10.3.0.0/24"], vrf_oid := "oid3" })]
      ≠ [("Vnet3", RoutesVal.routeList ["10.3.0.0/24"])] :=
  ⟨by decide, by decide⟩

/-- C2: the claim states that the self-route filter normalizes an
interface's configured address to a /32 host mask for any configured
subnet width.  The code only replaces the literal substring '/24' by
'/32': an interface configured as 10.1.0.5/16 yields the self entry
10.1.0.5/16, so the /32 host route 10.1.0.5/32 is NOT removed from the
route set, while a /24-configured interface is normalized as claimed. -/
theorem c2_host_mask_normalization_only_replaces_24 :
    build_vnet_ip2me_routes [("Vnet1", ["Vlan100"])] ["Vlan100:10.1.0.5/16"]
      = ["10.1.0.5/16"]
    ∧ filter_out_vnet_ip2me_routes [("Vnet1", ["Vlan100"])] ["Vlan100:10.1.0.5/16"]
        [("Vnet1", { routes := ["10.1.0.5/32"], vrf_oid := "o1" })]
      = [("Vnet1", { routes := ["10.1.0.5/32"], vrf_oid := "o1" })]
    ∧ build_vnet_ip2me_routes [("Vnet1", ["Vlan100"])] ["Vlan100:10.1.0.5/24"]
      = ["10.1.0.5/32"] :=
  ⟨by decide, by decide, by decide⟩

/-- C3: the value main passes to sys.exit is the success code RC_OK = 0
exactly when the three mismatch mappings (missed_in_asic_db_routes,
missed_in_app_db_routes, missed_in_sdk_routes) are all empty; when any
of them is non-empty the exit value is the distinct non-zero code
RC_ERR = -1. -/
theorem c3_exit_status_iff_all_empty
    (app_db_vnet_routes asic_db_vnet_routes : List (String × RouteEntry))
    (env : SdkEnv) :
    (main_rc app_db_vnet_routes asic_db_vnet_routes env = RC_OK ↔
      (get_vnet_routes_diff asic_db_vnet_routes app_db_vnet_routes = [] ∧
       get_vnet_routes_diff app_db_vnet_routes asic_db_vnet_routes = [] ∧
       get_sdk_vnet_routes_diff env asic_db_vnet_routes = []))
    ∧ ((get_vnet_routes_diff asic_db_vnet_routes app_db_vnet_routes ≠ [] ∨
        get_vnet_routes_diff app_db_vnet_routes asic_db_vnet_routes ≠ [] ∨
        get_sdk_vnet_routes_diff env asic_db_vnet_routes ≠ []) →
       main_rc app_db_vnet_routes asic_db_vnet_routes env = RC_ERR ∧ RC_ERR ≠ RC_OK) := by
  constructor
  · exact report_rc_eq_ok_iff _ _ _
  · intro h
    have h2 : ¬(get_vnet_routes_diff asic_db_vnet_routes app_db_vnet_routes = [] ∧
        get_vnet_routes_diff app_db_vnet_routes asic_db_vnet_routes = [] ∧
        get_sdk_vnet_routes_diff env asic_db_vnet_routes = []) := by
      rintro ⟨e1, e2, e3⟩
      rcases h with h | h | h
      · exact h e1
      · exact h e2
      · exact h e3
    exact ⟨report_rc_eq_err _ _ _ h2, by decide⟩

theorem c3_witness :
    main_rc [] [] { probe_res := 1, check_res := fun _ _ => 0 } = RC_OK :=
  (c3_exit_status_iff_all_empty [] [] { probe_res := 1, check_res := fun _ _ => 0 }).1.mpr
    ⟨by decide, by decide, by decide⟩

/-- C4: soundness of the diff.  Assuming the candidate B has unique vnet
keys (always true of a Python dictionary): every route list returned by
get_vnet_routes_diff A B for a network consists of prefixes of that
network's routes in B, each absent from A's route set for that network
when the network is present in both; and for a network present in both
whose candidate routes are all found in the reference, the network is
omitted from the result. -/
theorem c4_diff_soundness (A B : List (String × RouteEntry)) (n : String)
    (hB : (B.map Prod.fst).Nodup) :
    (∀ rs, dictLookup (get_vnet_routes_diff A B) n = some (RoutesVal.routeList rs) →
      ∃ eb, dictLookup B n = some eb ∧
        ∀ r ∈ rs, r ∈ eb.routes ∧ ∀ ea, dictLookup A n = some ea → r ∉ ea.routes)
    ∧ (∀ ea eb, dictLookup A n = some ea → dictLookup B n = some eb →
        (∀ r ∈ eb.routes, r ∈ ea.routes) →
        dictLookup (get_vnet_routes_diff A B) n = none) := by
  have hc := get_vnet_routes_diff_lookup A B n hB
  constructor
  · intro rs hrs
    rw [hc] at hrs
    cases hb : dictLookup B n with
    | none => simp [hb] at hrs
    | some eb =>
      cases ha : dictLookup A n with
      | none => simp [hb, ha] at hrs
      | some ea =>
        simp only [hb, ha] at hrs
        by_cases hemp : (missedRoutes ea.routes eb.routes).isEmpty
        · simp [hemp] at hrs
        · simp only [if_neg hemp, Option.some.injEq, RoutesVal.routeList.injEq] at hrs
          subst hrs
          refine ⟨eb, rfl, ?_⟩
          intro r hr
          have hm := mem_missedRoutes ea.routes eb.routes r hr
          refine ⟨hm.1, ?_⟩
          intro ea2 ha2
          injection ha2 with he
          rw [← he]
          exact hm.2
  · intro ea eb ha hb hsub
    rw [hc]
    simp only [hb, ha]
    simp [missedRoutes_eq_nil ea.routes eb.routes hsub]

theorem c4_witness :
    dictLookup (get_vnet_routes_diff
      [("Vnet1", { routes := ["10.1.0.0/24", "10.1.1.0/24"], vrf_oid := "o1" })]
      [("Vnet1", { routes := ["10.1.0.0/24"], vrf_oid := "o1" })]) "Vnet1" = none :=
  (c4_diff_soundness
    [("Vnet1", { routes := ["10.1.0.0/24", "10.1.1.0/24"], vrf_oid := "o1" })]
    [("Vnet1", { routes := ["10.1.0.0/24"], vrf_oid := "o1" })] "Vnet1" (by decide)).2
    { routes := ["10.1.0.0/24", "10.1.1.0/24"], vrf_oid := "o1" }
    { routes := ["10.1.0.0/24"], vrf_oid := "o1" }
    (by decide) (by decide) (by decide)

/-- C5: diffing a route table against itself yields the empty mapping,
for every table with unique vnet keys (always true of a Python
dictionary). -/
theorem c5_diff_self_is_empty (R : List (String × RouteEntry))
    (h : (R.map Prod.fst).Nodup) : get_vnet_routes_diff R R = [] := by
  apply eq_nil_of_dictLookup_none
  intro n
  rw [get_vnet_routes_diff_lookup R R n h]
  cases hb : dictLookup R n with
  | none => rfl
  | some e =>
    simp [hb, missedRoutes_eq_nil e.routes e.routes (fun r hr => hr)]

theorem c5_witness :
    get_vnet_routes_diff
      [("Vnet1", { routes := ["10.1.0.0/24"], vrf_oid := "o1" }),
       ("Vnet2", { routes := ["10.2.0.0/24", "10.2.1.0/24"], vrf_oid := "o2" })]
      [("Vnet1", { routes := ["10.1.0.0/24"], vrf_oid := "o1" }),
       ("Vnet2", { routes := ["10.2.0.0/24", "10.2.1.0/24"], vrf_oid := "o2" })] = [] :=
  c5_diff_self_is_empty
    [("Vnet1", { routes := ["10.1.0.0/24"], vrf_oid := "o1" }),
     ("Vnet2", { routes := ["10.2.0.0/24", "10.2.1.0/24"], vrf_oid := "o2" })] (by decide)

/-- C6: the claim states the self-route filter is idempotent.  It is
not: the source removes elements from vnet_attrs['routes'] while
iterating over it, so of two adjacent self-routes only the first is
removed by one application (the iterator skips the element that slides
into the removed one's position), and a second application removes the
second one and then prunes the emptied network.  With both routes of
Vnet1 being self-routes, one application keeps 10.1.0.2/32 while two
applications yield the empty mapping. -/
theorem c6_filter_not_idempotent :
    filter_out_vnet_ip2me_routes [("Vnet1", ["Vlan100"])]
        ["Vlan100:10.1.0.1/32", "Vlan100:10.1.0.2/32"]
        [("Vnet1", { routes := ["10.1.0.1/32", "10.1.0.2/32"], vrf_oid := "o1" })]
      = [("Vnet1", { routes := ["10.1.0.2/32"], vrf_oid := "o1" })]
    ∧ filter_out_vnet_ip2me_routes [("Vnet1", ["Vlan100"])]
        ["Vlan100:10.1.0.1/32", "Vlan100:10.1.0.2/32"]
        (filter_out_vnet_ip2me_routes [("Vnet1", ["Vlan100"])]
          ["Vlan100:10.1.0.1/32", "Vlan100:10.1.0.2/32"]
          [("Vnet1", { routes := ["10.1.0.1/32", "10.1.0.2/32"], vrf_oid := "o1" })])
      = []
    ∧ filter_out_vnet_ip2me_routes [("Vnet1", ["Vlan100"])]
        ["Vlan100:10.1.0.1/32", "Vlan100:10.1.0.2/32"]
        (filter_out_vnet_ip2me_routes [("Vnet1", ["Vlan100"])]
          ["Vlan100:10.1.0.1/32", "Vlan100:10.1.0.2/32"]
          [("Vnet1", { routes := ["10.1.0.1/32", "10.1.0.2/32"], vrf_oid := "o1" })])
      ≠ filter_out_vnet_ip2me_routes [("Vnet1", ["Vlan100"])]
          ["Vlan100:10.1.0.1/32", "Vlan100:10.1.0.2/32"]
          [("Vnet1", { routes := ["10.1.0.1/32", "10.1.0.2/32"], vrf_oid := "o1" })] :=
  ⟨by decide, by decide, by decide⟩

/-- C7: after filter_out_vnet_ip2me_routes, no network is mapped to an
empty route list (emptied networks are pruned), and a network that is
not a key of the filtered table is never a key of a diff result whose
candidate side is that table. -/
theorem c7_filter_prunes_empty_networks (vnet_intfs : List (String × List String))
    (all_rifs_db_keys : List String) (vnet_routes : List (String × RouteEntry))
    (routes_1 : List (String × RouteEntry)) (n : String) :
    (∀ p ∈ filter_out_vnet_ip2me_routes vnet_intfs all_rifs_db_keys vnet_routes,
      p.2.routes ≠ [])
    ∧ (dictLookup (filter_out_vnet_ip2me_routes vnet_intfs all_rifs_db_keys vnet_routes) n
        = none →
       dictLookup (get_vnet_routes_diff routes_1
         (filter_out_vnet_ip2me_routes vnet_intfs all_rifs_db_keys vnet_routes)) n
        = none) := by
  constructor
  · intro p hp
    simp only [filter_out_vnet_ip2me_routes, List.mem_filter] at hp
    have h2 := hp.2
    simp only [Bool.not_eq_true', List.isEmpty_eq_false] at h2
    exact h2
  · intro hnone
    have h := diffGo_lookup_absent routes_1
      (filter_out_vnet_ip2me_routes vnet_intfs all_rifs_db_keys vnet_routes) [] n hnone
    simpa [get_vnet_routes_diff, dictLookup] using h

theorem c7_witness :
    dictLookup (get_vnet_routes_diff []
      (filter_out_vnet_ip2me_routes [("Vnet1", ["Vlan100"])] ["Vlan100:10.1.0.5/32"]
        [("Vnet1", { routes := ["10.1.0.5/32"], vrf_oid := "o1" })])) "Vnet1" = none :=
  (c7_filter_prunes_empty_networks [("Vnet1", ["Vlan100"])] ["Vlan100:10.1.0.5/32"]
    [("Vnet1", { routes := ["10.1.0.5/32"], vrf_oid := "o1" })] [] "Vnet1").2 (by decide)

/-- C8: when the availability probe of the SDK checker fails (non-zero
os.system status), get_sdk_vnet_routes_diff returns the empty mapping
whatever the per-vnet check results would have been, and the run still
exits with the success code when the two other diff mappings are
empty. -/
theorem c8_sdk_unavailable_empty_and_success (env : SdkEnv)
    (app_db_vnet_routes asic_db_vnet_routes : List (String × RouteEntry))
    (h : env.probe_res ≠ 0) :
    get_sdk_vnet_routes_diff env asic_db_vnet_routes = []
    ∧ (get_vnet_routes_diff asic_db_vnet_routes app_db_vnet_routes = [] →
       get_vnet_routes_diff app_db_vnet_routes asic_db_vnet_routes = [] →
       main_rc app_db_vnet_routes asic_db_vnet_routes env = RC_OK) := by
  have hempty : get_sdk_vnet_routes_diff env asic_db_vnet_routes = [] := by
    simp [get_sdk_vnet_routes_diff, h]
  refine ⟨hempty, ?_⟩
  intro h1 h2
  exact (report_rc_eq_ok_iff _ _ _).mpr ⟨h1, h2, hempty⟩

theorem c8_witness :
    get_sdk_vnet_routes_diff { probe_res := 1, check_res := fun _ _ => 7 }
      [("Vnet1", { routes := ["10.1.0.0/24"], vrf_oid := "o1" })] = []
    ∧ main_rc [("Vnet1", { routes := ["10.1.0.0/24"], vrf_oid := "o1" })]
        [("Vnet1", { routes := ["10.1.0.0/24"], vrf_oid := "o1" })]
        { probe_res := 1, check_res := fun _ _ => 7 } = RC_OK := by
  have h := c8_sdk_unavailable_empty_and_success
    { probe_res := 1, check_res := fun _ _ => 7 }
    [("Vnet1", { routes := ["10.1.0.0/24"], vrf_oid := "o1" })]
    [("Vnet1", { routes := ["10.1.0.0/24"], vrf_oid := "o1" })] (by decide)
  exact ⟨h.1, h.2 (by decide) (by decide)⟩

/-- C9: the claim states that missed_in_sdk maps a network to the list
of route-prefix strings the SDK does not have programmed.  The code
instead stores the raw integer os.system exit status under 'routes'
(routes_diff[vnet_name]['routes'] = res): with an available checker
returning status 256 for Vnet1, the result maps Vnet1 to the integer
256, which is not a route-prefix list at all. -/
theorem c9_sdk_diff_stores_status_not_routes :
    get_sdk_vnet_routes_diff { probe_res := 0, check_res := fun _ _ => 256 }
        [("Vnet1", { routes := ["10.1.0.0/24"], vrf_oid := "oid1" })]
      = [("Vnet1", RoutesVal.retCode 256)]
    ∧ (∀ rs : List String, RoutesVal.retCode 256 ≠ RoutesVal.routeList rs) := by
  refine ⟨by decide, ?_⟩
  intro rs h
  exact RoutesVal.noConfusion h

/-- C10: building the control-plane route table succeeds only if every
network named by a route key is present in the interface map with a
non-empty interface list; a route key whose network has no interface
entry makes the collector raise (KeyError on vnet_intfs[vnet_name]) and
the run aborts with an error instead of producing a table. -/
theorem c10_app_db_requires_interface_entry
    (vnet_intfs : List (String × List String)) (vnet_vrfs : List (String × String))
    (vnet_routes_db_keys : List String) :
    (∀ result, get_vnet_routes_from_app_db vnet_intfs vnet_vrfs vnet_routes_db_keys
        = Except.ok result →
      ∀ k ∈ vnet_routes_db_keys, ∃ intfs,
        dictLookup vnet_intfs ((pySplitColon k).getD 0 "") = some intfs ∧ intfs ≠ [])
    ∧ (∀ k ∈ vnet_routes_db_keys,
        dictLookup vnet_intfs ((pySplitColon k).getD 0 "") = none →
        ∃ msg, get_vnet_routes_from_app_db vnet_intfs vnet_vrfs vnet_routes_db_keys
          = Except.error msg) := by
  constructor
  · intro result hok k hk
    exact appDbGo_ok_mem vnet_intfs vnet_vrfs vnet_routes_db_keys [] result hok
      (fun n e he => Option.noConfusion he) k hk
  · intro k hk hnone
    exact appDbGo_err_of_missing vnet_intfs vnet_vrfs vnet_routes_db_keys []
      (fun n e he => Option.noConfusion he) k hk hnone

theorem c10_witness :
    ∃ msg, get_vnet_routes_from_app_db [] [] ["Vnet1:10.1.0.0/24"]
      = Except.error msg :=
  (c10_app_db_requires_interface_entry [] [] ["Vnet1:10.1.0.0/24"]).2
    "Vnet1:10.1.0.0/24" (by decide) (by decide)
